import Mathlib

/-!
Verification of the ImageClassifierTransformer wrapper
(src/src/ImageClassifier/transformer.js).

The wrapper owns a lazily resolved inference callable, a single-flight busy
flag, a stop flag for the polling loop, a configured result count and a
backend identifier.  We embed the instance state as a structure, the
classify method as a pure function that also records which inference calls
and callback invocations happen, and the classifyStart polling loop as a
small-step machine whose events are external stop requests and
completions of the pending asynchronous step.

The collaborators imported from ../utils (handleArguments with its
require contract, isVideo, drawToCanvas) are code of the repository that
is not part of the reviewed sources; they are modelled from the
specification and marked as such below.
-/

namespace Ml5

/-- Image-like values.  A still image or canvas, a live video element, or
the static canvas snapshot that the canvas-drawing utility produces from
some source.  Identified by a numeric id so distinct elements are
distinguishable. -/
inductive Pixels where
  | still : Nat → Pixels
  | video : Nat → Pixels
  | canvasOf : Pixels → Pixels
deriving DecidableEq, Repr

/-- Modelled from the spec: the type probe used by the argument helper and
by line 71; recognizes live video elements and nothing else. -/
def isVideo : Pixels → Bool
  | Pixels.video _ => true
  | _ => false

/-- Modelled from the spec: the image-conversion collaborator drawToCanvas;
given a live video-like input it returns a static drawable snapshot. -/
def drawToCanvas (p : Pixels) : Pixels :=
  Pixels.canvasOf p

/-- The backend identifiers returned by the probe (line 11). -/
inductive Device where
  | webgpu : Device
  | wasm : Device
deriving DecidableEq, Repr

/-- Lines 11 to 14: prefers webgpu when the host exposes a gpu object on
navigator, falls back to wasm.  The host probe is the boolean argument. -/
def chooiseDevice (navigatorHasGpu : Bool) : Device :=
  if navigatorHasGpu then Device.webgpu else Device.wasm

/-- A raw result entry from the external inference callable: label and
score fields (scores are modelled as rationals). -/
structure RawResult where
  label : String
  score : ℚ
deriving DecidableEq, Repr

/-- A normalized result entry as produced on lines 78 to 81: label and
confidence fields. -/
structure NormResult where
  label : String
  confidence : ℚ
deriving DecidableEq, Repr

/-- The inference callable resolved by the pipeline: takes an input and
the top_k count, yields a list of raw results or rejects. -/
def ClassifierFn : Type :=
  Pixels → Int → Except Unit (List RawResult)

/-- A positional argument of classify or classifyStart: an image-like
value, a number, a function (callbacks are identified by a numeric id so
distinct callbacks are distinguishable), or undefined. -/
inductive Arg where
  | img : Pixels → Arg
  | num : Int → Arg
  | fn : Nat → Arg
  | undef : Arg
deriving DecidableEq, Repr

/-- The record returned by the argument-normalization collaborator:
which argument is the image, which the numeric count override, and which
the completion callback; absent slots are undefined. -/
structure ParsedArgs where
  image : Option Pixels
  number : Option Int
  callback : Option Nat
deriving DecidableEq, Repr

/-- Modelled from the spec: one assignment step of the argument helper;
each recognized argument is stored in the slot for its kind. -/
def parseOne (acc : ParsedArgs) : Arg → ParsedArgs
  | Arg.img p => { acc with image := some p }
  | Arg.num n => { acc with number := some n }
  | Arg.fn k => { acc with callback := some k }
  | Arg.undef => acc

/-- Modelled from the spec: the argument-normalization collaborator
handleArguments; given up to three positional arguments of mixed possible
types it identifies which is the image, which the numeric result-count
override, and which the completion callback. -/
def handleArguments (a b c : Arg) : ParsedArgs :=
  parseOne (parseOne (parseOne ⟨none, none, none⟩ a) b) c

/-- The error message passed to require on lines 66 to 68. -/
def classifyMissingImageMsg : String :=
  "No input image provided. If you want to classify a video, use classifyStart."

/-- The name of the streaming entry point, for the substring claim. -/
def classifyStartName : String :=
  "classifyStart"

/-- Errors with which a classify call can reject: the require error of the
argument helper (carrying its message), a type error from invoking an
absent callback, or the rejection of the awaited inference call. -/
inductive JsError where
  | missingImage : String → JsError
  | typeError : JsError
  | inferFailed : JsError
deriving DecidableEq, Repr

/-- Checks that pat occurs at the start of l. -/
def startsWithChars : List Char → List Char → Bool
  | [], _ => true
  | _ :: _, [] => false
  | p :: ps, x :: xs => p == x && startsWithChars ps xs

/-- Checks that pat occurs as a contiguous run somewhere in l. -/
def hasSubChars (pat : List Char) : List Char → Bool
  | [] => startsWithChars pat []
  | x :: xs => startsWithChars pat (x :: xs) || hasSubChars pat xs

/-- The string s mentions pat somewhere. -/
def mentions (pat s : String) : Bool :=
  hasSubChars pat.toList s.toList

/-- The instance fields of the wrapper, initialized on lines 33 to 37.
The classifier field is null until the pipeline resolves. -/
structure ClassifierState where
  classifier : Option ClassifierFn
  needToStop : Bool
  isClassifying : Bool
  topK : Int
  device : Device

/-- Construction options: topK and device may each be absent.  The other
passthrough options do not affect the embedded behaviour. -/
structure TransformerOptions where
  topK : Option Int
  device : Option Device

/-- The truthiness-based default of line 36 and line 37: a JS
x || d expression over an optional number, where 0 is falsy. -/
def jsOrNum (x : Option Int) (d : Int) : Int :=
  match x with
  | none => d
  | some v => if v = 0 then d else v

/-- Lines 32 to 37: the synchronous field initialization of the
constructor.  The asynchronous pipeline resolution of lines 38 to 46 is
external; it later installs the classifier, see resolveReady. -/
def mkState (options : TransformerOptions) (navigatorHasGpu : Bool) :
    ClassifierState :=
  { classifier := none
    needToStop := false
    isClassifying := false
    topK := jsOrNum options.topK 3
    device := match options.device with
      | some d => d
      | none => chooiseDevice navigatorHasGpu }

/-- Lines 42 to 43: when the pipeline resolves, the classifier field is
set to the resolved callable. -/
def resolveReady (st : ClassifierState) (f : ClassifierFn) :
    ClassifierState :=
  { st with classifier := some f }

/-- The observable outcome of one classify call: the final instance
state, the settled value of the returned promise (ok none is resolving
with undefined from the guard; ok (some l) is the normalized result list;
error is a rejection), the inference calls made with their input and
top_k, and the callback invocations with their argument. -/
structure ClassifyResult where
  state : ClassifierState
  ret : Except JsError (Option (List NormResult))
  inferCalls : List (Pixels × Int)
  cbCalls : List (Nat × List NormResult)

/-- The guard outcome of line 58: return undefined, touch nothing. -/
def classifyNoop (st : ClassifierState) : ClassifyResult :=
  ⟨st, Except.ok none, [], []⟩

/-- Lines 57 to 87: the classify method.
Line 58: if busy or the classifier is still null, return undefined.
Line 59: set the busy flag.
Lines 61 to 68: normalize the arguments; require the image, rejecting
with the descriptive message when it is absent.
Line 71: snapshot a video input to a canvas, pass others through.
Line 74: the explicit override is tested against undefined, not truthiness.
Line 75: invoke the inference callable once with the input and top_k;
a rejection of the await propagates, leaving the busy flag set.
Lines 78 to 81: rename each score field to confidence.
Line 84: invoke the callback (invoking an absent callback is a type
error, which also leaves the busy flag set).
Lines 85 to 86: clear the busy flag and resolve with the sequence. -/
def classify (st : ClassifierState) (a b c : Arg) : ClassifyResult :=
  if st.isClassifying then classifyNoop st
  else
    match st.classifier with
    | none => classifyNoop st
    | some f =>
      let st1 := { st with isClassifying := true }
      let parsed := handleArguments a b c
      match parsed.image with
      | none => ⟨st1, Except.error (JsError.missingImage classifyMissingImageMsg), [], []⟩
      | some image =>
        let input := if isVideo image then drawToCanvas image else image
        let topK := match parsed.number with
          | some n => n
          | none => st.topK
        match f input topK with
        | Except.error _ => ⟨st1, Except.error JsError.inferFailed, [(input, topK)], []⟩
        | Except.ok results =>
          let normalized := results.map (fun r => NormResult.mk r.label r.score)
          match parsed.callback with
          | none => ⟨st1, Except.error JsError.typeError, [(input, topK)], []⟩
          | some cbId =>
            ⟨{ st1 with isClassifying := false },
             Except.ok (some normalized),
             [(input, topK)],
             [(cbId, normalized)]⟩

/-- Lines 119 to 121: classifyStop sets the stop flag. -/
def classifyStop (st : ClassifierState) : ClassifierState :=
  { st with needToStop := true }

/-- The instance state as visible while a classify call is suspended at
its await: if the guard of line 58 passed the busy flag is set (line 59),
otherwise nothing was touched. -/
def classifyMidState (st : ClassifierState) : ClassifierState :=
  if st.isClassifying then st
  else
    match st.classifier with
    | none => st
    | some _ => { st with isClassifying := true }

/-- How the continuation of lines 104 to 109 reaches the next loop
iteration: synchronously (webgpu) or through a timer with a delay in
milliseconds (wasm). -/
inductive Delay where
  | immediate : Delay
  | afterMs : Nat → Delay
deriving DecidableEq, Repr

/-- The pending asynchronous work of the classifyStart loop.
halted: no further iteration will run (next returned, or the promise of
the iteration rejected so its then continuation never fires).
inFlight r: a classify call was started and is suspended; classify is
pure, so its eventual outcome r is determined at the call.
scheduled d: the then continuation of line 104 ran and the next call to
next is pending (line 106 or line 108). -/
inductive Pending where
  | halted : Pending
  | inFlight : ClassifyResult → Pending
  | scheduled : Delay → Pending

/-- A configuration of the classifyStart loop: the instance state, the
pending asynchronous work, and the log of every callback invocation
delivered so far. -/
structure LoopConfig where
  st : ClassifierState
  pending : Pending
  cbLog : List (Nat × List NormResult)

/-- The events that drive the loop: an external classifyStop call, or
the completion of the pending asynchronous step (the awaited inference
call resolving, or the scheduled call to next running). -/
inductive LoopEvent where
  | stop : LoopEvent
  | fire : LoopEvent
deriving DecidableEq, Repr

/-- Lines 102 to 110: one run of next.  If the stop flag is set, return
without classifying; otherwise start a classify call, whose synchronous
prefix sets the busy flag, and suspend. -/
def runNext (a b c : Arg) (cfg : LoopConfig) : LoopConfig :=
  if cfg.st.needToStop then { cfg with pending := Pending.halted }
  else
    { st := classifyMidState cfg.st
      pending := Pending.inFlight (classify cfg.st a b c)
      cbLog := cfg.cbLog }

/-- Lines 96 to 113: classifyStart.  Guarded identically to classify
(line 97); clears the stop flag (line 99) and calls next synchronously
(line 112). -/
def classifyStart (st : ClassifierState) (a b c : Arg) : LoopConfig :=
  if st.isClassifying then ⟨st, Pending.halted, []⟩
  else
    match st.classifier with
    | none => ⟨st, Pending.halted, []⟩
    | some _ =>
      runNext a b c ⟨{ st with needToStop := false }, Pending.halted, []⟩

/-- One step of the loop machine.
stop: classifyStop sets the stop flag (line 120); classify never writes
that flag, so a precomputed in-flight outcome stays valid.
fire on inFlight r: the suspended classify call finishes.  Its callback
invocations are delivered and the busy flag takes its final value (the
other fields are exactly those classify leaves untouched, so the current
values are kept).  If the call resolved, the then continuation of lines
104 to 109 schedules the next iteration, immediately for webgpu and
after 1000 milliseconds for wasm; if it rejected, the continuation never
fires and the loop halts.
fire on scheduled: the pending call to next runs (lines 102 to 110). -/
def loopStep (a b c : Arg) (cfg : LoopConfig) : LoopEvent → LoopConfig
  | LoopEvent.stop => { cfg with st := classifyStop cfg.st }
  | LoopEvent.fire =>
    match cfg.pending with
    | Pending.halted => cfg
    | Pending.inFlight r =>
      let st1 := { cfg.st with isClassifying := r.state.isClassifying }
      let log := cfg.cbLog ++ r.cbCalls
      match r.ret with
      | Except.error _ => ⟨st1, Pending.halted, log⟩
      | Except.ok _ =>
        ⟨st1,
         Pending.scheduled
           (if st1.device = Device.webgpu then Delay.immediate
            else Delay.afterMs 1000),
         log⟩
    | Pending.scheduled _ => runNext a b c cfg

/-- Runs the loop machine over a sequence of events. -/
def loopRun (a b c : Arg) (cfg : LoopConfig) : List LoopEvent → LoopConfig
  | [] => cfg
  | e :: es => loopRun a b c (loopStep a b c cfg e) es

/-- A sample label for concrete runs. -/
def sampleLabel : String :=
  "tabby cat"

/-- A sample raw result entry. -/
def sampleRaw : RawResult :=
  ⟨sampleLabel, 9 / 10⟩

/-- A sample inference callable that always resolves with one entry. -/
def sampleClassifier : ClassifierFn :=
  fun _ _ => Except.ok [sampleRaw]

/-- A sample inference callable that always rejects. -/
def failingClassifier : ClassifierFn :=
  fun _ _ => Except.error ()

/-- A resolved, idle wrapper state with the default configuration. -/
def readyState : ClassifierState :=
  ⟨some sampleClassifier, false, false, 3, Device.webgpu⟩

/-- A wrapper state with an inference already in flight. -/
def busyState : ClassifierState :=
  { readyState with isClassifying := true }

/-- A wrapper state whose model handle is still null. -/
def nullState : ClassifierState :=
  { readyState with classifier := none }

/-- A resolved, idle wrapper state on the wasm backend. -/
def wasmState : ClassifierState :=
  { readyState with device := Device.wasm }

/-- A resolved, idle wrapper state whose inference callable rejects. -/
def failingState : ClassifierState :=
  { readyState with classifier := some failingClassifier }

section Lemmas

variable (st : ClassifierState) (a b c : Arg)

lemma classify_of_busy (h : st.isClassifying = true) :
    classify st a b c = classifyNoop st := by
  simp [classify, h]

lemma classify_of_null (h : st.classifier = none) :
    classify st a b c = classifyNoop st := by
  unfold classify
  rw [h]
  split <;> rfl

lemma classifyStart_of_busy (h : st.isClassifying = true) :
    classifyStart st a b c = ⟨st, Pending.halted, []⟩ := by
  simp [classifyStart, h]

lemma classifyStart_of_null (h : st.classifier = none) :
    classifyStart st a b c = ⟨st, Pending.halted, []⟩ := by
  unfold classifyStart
  rw [h]
  split <;> rfl

lemma classify_success_eq (f : ClassifierFn) (img : Pixels) (n : Int)
    (k : Nat) (rs : List RawResult)
    (hb : st.isClassifying = false) (hc : st.classifier = some f)
    (him : (handleArguments a b c).image = some img)
    (hn : (match (handleArguments a b c).number with
           | some m => m
           | none => st.topK) = n)
    (hcb : (handleArguments a b c).callback = some k)
    (hf : f (if isVideo img then drawToCanvas img else img) n = Except.ok rs) :
    classify st a b c =
      ⟨{ st with isClassifying := false },
       Except.ok (some (rs.map (fun r => NormResult.mk r.label r.score))),
       [((if isVideo img then drawToCanvas img else img), n)],
       [(k, rs.map (fun r => NormResult.mk r.label r.score))]⟩ := by
  unfold classify
  rw [hb, hc]
  simp only [Bool.false_eq_true, if_false, him, hn, hf, hcb]

lemma classify_noImage_eq (f : ClassifierFn)
    (hb : st.isClassifying = false) (hc : st.classifier = some f)
    (him : (handleArguments a b c).image = none) :
    classify st a b c =
      ⟨{ st with isClassifying := true },
       Except.error (JsError.missingImage classifyMissingImageMsg), [], []⟩ := by
  unfold classify
  rw [hb, hc]
  simp only [Bool.false_eq_true, if_false, him]

lemma classify_inferError_eq (f : ClassifierFn) (img : Pixels) (n : Int)
    (hb : st.isClassifying = false) (hc : st.classifier = some f)
    (him : (handleArguments a b c).image = some img)
    (hn : (match (handleArguments a b c).number with
           | some m => m
           | none => st.topK) = n)
    (hf : f (if isVideo img then drawToCanvas img else img) n =
            Except.error ()) :
    classify st a b c =
      ⟨{ st with isClassifying := true },
       Except.error JsError.inferFailed,
       [((if isVideo img then drawToCanvas img else img), n)], []⟩ := by
  unfold classify
  rw [hb, hc]
  simp only [Bool.false_eq_true, if_false, him, hn, hf]

lemma handleArguments_image_none
    (ha : ∀ p : Pixels, a ≠ Arg.img p)
    (hbn : ∀ p : Pixels, b ≠ Arg.img p)
    (hcn : ∀ p : Pixels, c ≠ Arg.img p) :
    (handleArguments a b c).image = none := by
  cases a <;> cases b <;> cases c <;>
    first
      | exact absurd rfl (ha _)
      | exact absurd rfl (hbn _)
      | exact absurd rfl (hcn _)
      | rfl

lemma classify_state_error (f : ClassifierFn) (e : JsError)
    (hb : st.isClassifying = false) (hc : st.classifier = some f)
    (he : (classify st a b c).ret = Except.error e) :
    (classify st a b c).state = { st with isClassifying := true } := by
  unfold classify at he ⊢
  rw [hb, hc] at he ⊢
  simp only [Bool.false_eq_true, if_false] at he ⊢
  rcases him : (handleArguments a b c).image with _ | img <;>
    simp only [him] at he ⊢
  rcases hfr : f (if isVideo img then drawToCanvas img else img)
      (match (handleArguments a b c).number with
       | some m => m
       | none => st.topK) with _ | rs <;>
    simp only [hfr] at he ⊢
  rcases hcb : (handleArguments a b c).callback with _ | k <;>
    simp only [hcb] at he ⊢
  exact absurd he (by simp)

lemma classify_cbCalls_len :
    (classify st a b c).cbCalls.length ≤ 1 := by
  unfold classify classifyNoop
  split
  · simp
  split
  · simp
  dsimp only
  split
  · simp
  split
  · simp
  split <;> simp

lemma classify_inferCalls_eq (f : ClassifierFn) (img : Pixels) (n : Int)
    (hb : st.isClassifying = false) (hc : st.classifier = some f)
    (him : (handleArguments a b c).image = some img)
    (hn : (match (handleArguments a b c).number with
           | some m => m
           | none => st.topK) = n) :
    (classify st a b c).inferCalls =
      [((if isVideo img then drawToCanvas img else img), n)] := by
  unfold classify
  rw [hb, hc]
  simp only [Bool.false_eq_true, if_false, him, hn]
  split
  · rfl
  split
  · rfl
  · rfl

end Lemmas

/-- Bound on a pending task: an in-flight classify outcome delivers at
most one callback invocation. -/
def pendingBound : Pending → Prop
  | Pending.inFlight r => r.cbCalls.length ≤ 1
  | _ => True

/-- The callback budget of a configuration: callbacks delivered so far
plus at most one more from an in-flight call. -/
def budget (cfg : LoopConfig) : Nat :=
  cfg.cbLog.length +
    match cfg.pending with
    | Pending.inFlight r => min r.cbCalls.length 1
    | _ => 0

section LoopLemmas

variable (a b c : Arg) (cfg : LoopConfig) (e : LoopEvent)

lemma loopStep_needToStop (h : cfg.st.needToStop = true) :
    (loopStep a b c cfg e).st.needToStop = true := by
  cases e with
  | stop => simp [loopStep, classifyStop]
  | fire =>
    rcases cfg with ⟨cst, pend, log⟩
    rcases pend with _ | r | d
    · exact h
    · rcases hr : r.ret with _ | v <;>
        simp_all [loopStep]
    · simp_all [loopStep, runNext]

lemma loopStep_pendingBound (h : pendingBound cfg.pending) :
    pendingBound (loopStep a b c cfg e).pending := by
  cases e with
  | stop => exact h
  | fire =>
    rcases cfg with ⟨cst, pend, log⟩
    rcases pend with _ | r | d
    · exact h
    · rcases hr : r.ret with _ | v <;> simp_all [loopStep, pendingBound]
    · simp only [loopStep, runNext]
      split
      · trivial
      · exact classify_cbCalls_len cst a b c

lemma loopStep_budget (h : cfg.st.needToStop = true)
    (hpb : pendingBound cfg.pending) :
    budget (loopStep a b c cfg e) ≤ budget cfg := by
  cases e with
  | stop => rcases cfg with ⟨cst, pend, log⟩; simp [loopStep, budget]
  | fire =>
    rcases cfg with ⟨cst, pend, log⟩
    rcases pend with _ | r | d
    · exact Nat.le_refl _
    · have hlen : min r.cbCalls.length 1 = r.cbCalls.length :=
        Nat.min_eq_left hpb
      rcases hr : r.ret with _ | v <;>
        simp_all [loopStep, budget]
    · simp only [loopStep, runNext] at *
      simp_all [budget]

lemma loopRun_budget (es : List LoopEvent) (h : cfg.st.needToStop = true)
    (hpb : pendingBound cfg.pending) :
    budget (loopRun a b c cfg es) ≤ budget cfg := by
  induction es generalizing cfg with
  | nil => exact Nat.le_refl _
  | cons e es ih =>
    exact Nat.le_trans
      (ih _ (loopStep_needToStop a b c cfg e h)
            (loopStep_pendingBound a b c cfg e hpb))
      (loopStep_budget a b c cfg e h hpb)

lemma loopRun_cbLog_le (es : List LoopEvent)
    (h : cfg.st.needToStop = true) (hpb : pendingBound cfg.pending) :
    (loopRun a b c cfg es).cbLog.length ≤ cfg.cbLog.length + 1 := by
  have h1 : (loopRun a b c cfg es).cbLog.length ≤
      budget (loopRun a b c cfg es) := Nat.le_add_right _ _
  have h2 : budget cfg ≤ cfg.cbLog.length + 1 := by
    rcases cfg with ⟨cst, pend, log⟩
    rcases pend with _ | r | d <;> simp [budget, Nat.min_le_right]
  exact Nat.le_trans (Nat.le_trans h1 (loopRun_budget a b c cfg es h hpb)) h2

/-- A configuration in which the stop flag is set and no classify call is
in flight: the loop can only halt and delivers nothing further. -/
def stoppedCfg (cfg : LoopConfig) : Prop :=
  cfg.st.needToStop = true ∧
    (cfg.pending = Pending.halted ∨ ∃ d, cfg.pending = Pending.scheduled d)

lemma loopStep_stoppedCfg (h : stoppedCfg cfg) :
    stoppedCfg (loopStep a b c cfg e) ∧
      (loopStep a b c cfg e).cbLog = cfg.cbLog := by
  rcases h with ⟨hstop, hp⟩
  cases e with
  | stop =>
    exact ⟨⟨by simp [loopStep, classifyStop], hp⟩, rfl⟩
  | fire =>
    rcases hp with hp | ⟨d, hp⟩ <;>
      simp_all [loopStep, runNext, stoppedCfg]

lemma loopRun_stoppedCfg (es : List LoopEvent) (h : stoppedCfg cfg) :
    (loopRun a b c cfg es).cbLog = cfg.cbLog := by
  induction es generalizing cfg with
  | nil => rfl
  | cons e es ih =>
    rcases loopStep_stoppedCfg a b c cfg e h with ⟨h1, h2⟩
    rw [loopRun, ih _ h1, h2]

end LoopLemmas

lemma canvasOf_ne (p : Pixels) : Pixels.canvasOf p ≠ p := by
  intro h
  induction p with
  | still n => exact Pixels.noConfusion h
  | video n => exact Pixels.noConfusion h
  | canvasOf q ih => exact ih (Pixels.canvasOf.inj h)

lemma classifyStart_run_eq (st : ClassifierState) (a b c : Arg)
    (f : ClassifierFn)
    (hb : st.isClassifying = false) (hc : st.classifier = some f) :
    classifyStart st a b c =
      ⟨classifyMidState { st with needToStop := false },
       Pending.inFlight (classify { st with needToStop := false } a b c),
       []⟩ := by
  unfold classifyStart
  rw [hb, hc]
  simp [runNext]

lemma loopRun_stop_fire_len (a b c : Arg) (st0 : ClassifierState)
    (R : ClassifyResult) (v : Option (List NormResult))
    (hv : R.ret = Except.ok v) (es2 : List LoopEvent) :
    (loopRun a b c
      (loopStep a b c
        (loopStep a b c ⟨st0, Pending.inFlight R, []⟩ LoopEvent.stop)
        LoopEvent.fire) es2).cbLog.length =
      R.cbCalls.length := by
  have hstep : loopStep a b c ⟨st0, Pending.inFlight R, []⟩ LoopEvent.stop =
      ⟨classifyStop st0, Pending.inFlight R, []⟩ := rfl
  rw [hstep]
  have hfire : loopStep a b c ⟨classifyStop st0, Pending.inFlight R, []⟩
        LoopEvent.fire =
      ⟨{ classifyStop st0 with isClassifying := R.state.isClassifying },
       Pending.scheduled
         (if ({ classifyStop st0 with
                isClassifying := R.state.isClassifying } :
                ClassifierState).device = Device.webgpu
          then Delay.immediate else Delay.afterMs 1000),
       [] ++ R.cbCalls⟩ := by
    simp [loopStep, hv]
  rw [hfire, loopRun_stoppedCfg]
  · simp
  · exact ⟨rfl, Or.inr ⟨_, rfl⟩⟩

/-- Options with an explicit topK of 0, a falsy number. -/
def zeroTopKOptions : TransformerOptions :=
  ⟨some 0, some Device.webgpu⟩

/-- Claim C1: if classify or classifyStart is called while isClassifying
is true or while the classifier handle is still null, the call returns
undefined, performs no inference, never invokes the supplied callback,
and leaves the state untouched, so at most one inference is in flight
per wrapper at any time. -/
theorem claim_C1 (st : ClassifierState) (a b c : Arg)
    (h : st.isClassifying = true ∨ st.classifier = none) :
    (classify st a b c).ret = Except.ok none ∧
    (classify st a b c).inferCalls = [] ∧
    (classify st a b c).cbCalls = [] ∧
    (classify st a b c).state = st ∧
    (classifyStart st a b c).pending = Pending.halted ∧
    (classifyStart st a b c).cbLog = [] ∧
    (classifyStart st a b c).st = st := by
  rcases h with h | h
  · rw [classify_of_busy st a b c h, classifyStart_of_busy st a b c h]
    exact ⟨rfl, rfl, rfl, rfl, rfl, rfl, rfl⟩
  · rw [classify_of_null st a b c h, classifyStart_of_null st a b c h]
    exact ⟨rfl, rfl, rfl, rfl, rfl, rfl, rfl⟩

/-- Claim C1 witness: a concrete busy wrapper where classify and
classifyStart no-op. -/
theorem claim_C1_witness :
    (classify busyState (Arg.img (Pixels.still 0)) (Arg.fn 1) Arg.undef).ret =
      Except.ok none ∧
    (classify busyState (Arg.img (Pixels.still 0)) (Arg.fn 1) Arg.undef).inferCalls = [] ∧
    (classify busyState (Arg.img (Pixels.still 0)) (Arg.fn 1) Arg.undef).cbCalls = [] ∧
    (classify busyState (Arg.img (Pixels.still 0)) (Arg.fn 1) Arg.undef).state = busyState ∧
    (classifyStart busyState (Arg.img (Pixels.still 0)) (Arg.fn 1) Arg.undef).pending =
      Pending.halted ∧
    (classifyStart busyState (Arg.img (Pixels.still 0)) (Arg.fn 1) Arg.undef).cbLog = [] ∧
    (classifyStart busyState (Arg.img (Pixels.still 0)) (Arg.fn 1) Arg.undef).st = busyState :=
  claim_C1 busyState (Arg.img (Pixels.still 0)) (Arg.fn 1) Arg.undef (Or.inl rfl)

/-- Claim C2: with the guard passed and no image-like argument among the
three positional arguments, classify rejects with the descriptive
missing-image error, whose message mentions classifyStart, and makes no
inference call. -/
theorem claim_C2 (st : ClassifierState) (a b c : Arg) (f : ClassifierFn)
    (hc : st.classifier = some f) (hb : st.isClassifying = false)
    (ha : ∀ p : Pixels, a ≠ Arg.img p)
    (hbn : ∀ p : Pixels, b ≠ Arg.img p)
    (hcn : ∀ p : Pixels, c ≠ Arg.img p) :
    (classify st a b c).ret =
      Except.error (JsError.missingImage classifyMissingImageMsg) ∧
    mentions classifyStartName classifyMissingImageMsg = true ∧
    (classify st a b c).inferCalls = [] := by
  have him := handleArguments_image_none a b c ha hbn hcn
  rw [classify_noImage_eq st a b c f hb hc him]
  exact ⟨rfl, by decide, rfl⟩

/-- Claim C2 witness: a concrete ready wrapper called with a function and
a number but no image. -/
theorem claim_C2_witness :
    (classify readyState (Arg.fn 5) (Arg.num 2) Arg.undef).ret =
      Except.error (JsError.missingImage classifyMissingImageMsg) ∧
    mentions classifyStartName classifyMissingImageMsg = true ∧
    (classify readyState (Arg.fn 5) (Arg.num 2) Arg.undef).inferCalls = [] :=
  claim_C2 readyState (Arg.fn 5) (Arg.num 2) Arg.undef sampleClassifier rfl rfl
    (fun _ h => Arg.noConfusion h)
    (fun _ h => Arg.noConfusion h)
    (fun _ h => Arg.noConfusion h)

/-- Claim C3 counterexample: the claim says the configured default is set
at construction to options.topK, or 3 when absent; but with
options.topK = 0, which is provided rather than absent, line 36 stores 3,
and a classify call without an explicit override then passes top_k 3,
not the 0 the claim predicts. -/
theorem claim_C3_counterexample :
    zeroTopKOptions.topK = some 0 ∧
    (mkState zeroTopKOptions true).topK = 3 ∧
    (mkState zeroTopKOptions true).topK ≠ 0 ∧
    (classify (resolveReady (mkState zeroTopKOptions true) sampleClassifier)
        (Arg.img (Pixels.still 0)) (Arg.fn 1) Arg.undef).inferCalls =
      [(Pixels.still 0, 3)] := by
  exact ⟨rfl, rfl, by decide, rfl⟩

/-- Claim C3 as amended: for every guard-passing classify call the top_k
value passed to the inference callable equals the explicit numeric
argument when one is provided and the configured default otherwise, and
the configured default is set at construction to options.topK when that
is a nonzero number, or to 3 when it is absent or zero. -/
theorem claim_C3 (st : ClassifierState) (a b c : Arg) (f : ClassifierFn)
    (img : Pixels) (opts : TransformerOptions) (g : Bool)
    (hb : st.isClassifying = false) (hc : st.classifier = some f)
    (him : (handleArguments a b c).image = some img) :
    (∀ n : Int, (handleArguments a b c).number = some n →
      (classify st a b c).inferCalls =
        [((if isVideo img then drawToCanvas img else img), n)]) ∧
    ((handleArguments a b c).number = none →
      (classify st a b c).inferCalls =
        [((if isVideo img then drawToCanvas img else img), st.topK)]) ∧
    (∀ k : Int, opts.topK = some k → k ≠ 0 → (mkState opts g).topK = k) ∧
    (opts.topK = none → (mkState opts g).topK = 3) ∧
    (opts.topK = some 0 → (mkState opts g).topK = 3) := by
  refine ⟨?_, ?_, ?_, ?_, ?_⟩
  · intro n hnum
    exact classify_inferCalls_eq st a b c f img n hb hc him (by rw [hnum])
  · intro hnum
    exact classify_inferCalls_eq st a b c f img st.topK hb hc him (by rw [hnum])
  · intro k hk hk0
    simp [mkState, jsOrNum, hk, hk0]
  · intro hk
    simp [mkState, jsOrNum, hk]
  · intro hk
    simp [mkState, jsOrNum, hk]

/-- Claim C3 witness: an explicit override of 5 is passed as top_k even
though the configured default is 3, and an absent options.topK yields the
default 3. -/
theorem claim_C3_witness :
    (classify readyState (Arg.img (Pixels.still 2)) (Arg.num 5) (Arg.fn 1)).inferCalls =
      [(Pixels.still 2, 5)] ∧
    (mkState ⟨none, some Device.wasm⟩ false).topK = 3 := by
  have h := claim_C3 readyState (Arg.img (Pixels.still 2)) (Arg.num 5) (Arg.fn 1)
    sampleClassifier (Pixels.still 2) ⟨none, some Device.wasm⟩ false rfl rfl rfl
  exact ⟨h.1 5 rfl, h.2.2.2.1 rfl⟩

/-- Claim C4: a successful classify call invokes the inference callable
exactly once, maps each raw entry to a normalized entry with the label
preserved and confidence equal to the score, invokes the callback with
the normalized sequence, clears the busy flag, and resolves with the same
sequence; confidences lie in the unit interval whenever the scores do. -/
theorem claim_C4 (st : ClassifierState) (a b c : Arg) (f : ClassifierFn)
    (img : Pixels) (n : Int) (k : Nat) (rs : List RawResult)
    (hb : st.isClassifying = false) (hc : st.classifier = some f)
    (him : (handleArguments a b c).image = some img)
    (hn : (match (handleArguments a b c).number with
           | some m => m
           | none => st.topK) = n)
    (hcb : (handleArguments a b c).callback = some k)
    (hf : f (if isVideo img then drawToCanvas img else img) n = Except.ok rs) :
    (classify st a b c).inferCalls.length = 1 ∧
    (classify st a b c).cbCalls =
      [(k, rs.map (fun r => NormResult.mk r.label r.score))] ∧
    (classify st a b c).ret =
      Except.ok (some (rs.map (fun r => NormResult.mk r.label r.score))) ∧
    (classify st a b c).state.isClassifying = false ∧
    ((∀ r ∈ rs, 0 ≤ r.score ∧ r.score ≤ 1) →
      ∀ q ∈ rs.map (fun r => NormResult.mk r.label r.score),
        0 ≤ q.confidence ∧ q.confidence ≤ 1) := by
  rw [classify_success_eq st a b c f img n k rs hb hc him hn hcb hf]
  refine ⟨rfl, rfl, rfl, rfl, ?_⟩
  intro hsc q hq
  rcases List.mem_map.mp hq with ⟨r, hr, rfl⟩
  exact hsc r hr

/-- Claim C4 witness: a concrete successful call with its dual delivery
and normalized entry. -/
theorem claim_C4_witness :
    (classify readyState (Arg.img (Pixels.still 0)) Arg.undef (Arg.fn 7)).cbCalls =
      [(7, [NormResult.mk sampleLabel (9 / 10)])] ∧
    (classify readyState (Arg.img (Pixels.still 0)) Arg.undef (Arg.fn 7)).ret =
      Except.ok (some [NormResult.mk sampleLabel (9 / 10)]) ∧
    (classify readyState (Arg.img (Pixels.still 0)) Arg.undef (Arg.fn 7)).state.isClassifying =
      false := by
  have h := claim_C4 readyState (Arg.img (Pixels.still 0)) Arg.undef (Arg.fn 7)
    sampleClassifier (Pixels.still 0) 3 7 [sampleRaw] rfl rfl rfl rfl rfl rfl
  exact ⟨h.2.1, h.2.2.1, h.2.2.2.1⟩

/-- Claim C5: once the stop flag is set, any run of the loop delivers at
most one more classification callback (the in-flight one); and a
classifyStart on a ready idle wrapper immediately followed by
classifyStop delivers exactly one completed classification callback, no
matter how the loop is driven afterwards. -/
theorem claim_C5 (a b c : Arg) (cfg : LoopConfig) (es : List LoopEvent)
    (st : ClassifierState) (f : ClassifierFn) (img : Pixels) (k : Nat)
    (rs : List RawResult)
    (hstop : cfg.st.needToStop = true) (hpb : pendingBound cfg.pending)
    (hb : st.isClassifying = false) (hc : st.classifier = some f)
    (him : (handleArguments a b c).image = some img)
    (hcb : (handleArguments a b c).callback = some k)
    (hf : ∀ (p : Pixels) (n : Int), f p n = Except.ok rs) :
    (loopRun a b c cfg es).cbLog.length ≤ cfg.cbLog.length + 1 ∧
    ∀ es2 : List LoopEvent,
      (loopRun a b c
        (loopStep a b c
          (loopStep a b c (classifyStart st a b c) LoopEvent.stop)
          LoopEvent.fire) es2).cbLog.length = 1 := by
  refine ⟨loopRun_cbLog_le a b c cfg es hstop hpb, ?_⟩
  intro es2
  have h1 := classifyStart_run_eq st a b c f hb hc
  have h2 := classify_success_eq { st with needToStop := false } a b c f img
    (match (handleArguments a b c).number with
     | some m => m
     | none => st.topK) k rs hb hc him rfl hcb (hf _ _)
  rw [h1, h2, loopRun_stop_fire_len a b c _ _ _ rfl es2]
  rfl

/-- Claim C5 witness: a concrete stopped configuration and the concrete
start-then-stop scenario, each driven by concrete events. -/
theorem claim_C5_witness :
    (loopRun (Arg.img (Pixels.still 0)) Arg.undef (Arg.fn 7)
      ⟨classifyStop readyState, Pending.halted, []⟩
      [LoopEvent.fire]).cbLog.length ≤ 1 ∧
    (loopRun (Arg.img (Pixels.still 0)) Arg.undef (Arg.fn 7)
      (loopStep (Arg.img (Pixels.still 0)) Arg.undef (Arg.fn 7)
        (loopStep (Arg.img (Pixels.still 0)) Arg.undef (Arg.fn 7)
          (classifyStart readyState (Arg.img (Pixels.still 0)) Arg.undef
            (Arg.fn 7))
          LoopEvent.stop)
        LoopEvent.fire)
      [LoopEvent.fire, LoopEvent.fire]).cbLog.length = 1 := by
  have h := claim_C5 (Arg.img (Pixels.still 0)) Arg.undef (Arg.fn 7)
    ⟨classifyStop readyState, Pending.halted, []⟩ [LoopEvent.fire]
    readyState sampleClassifier (Pixels.still 0) 7 [sampleRaw]
    rfl True.intro rfl rfl rfl rfl (fun _ _ => rfl)
  exact ⟨h.1, h.2 [LoopEvent.fire, LoopEvent.fire]⟩

/-- Claim C6: when an in-flight classify iteration completes with a
resolved promise and the stop flag is not set, the next iteration is
scheduled immediately on the webgpu backend and after a fixed 1000
millisecond delay on the wasm backend. -/
theorem claim_C6 (a b c : Arg) (cfg : LoopConfig) (r : ClassifyResult)
    (v : Option (List NormResult))
    (hp : cfg.pending = Pending.inFlight r) (hr : r.ret = Except.ok v)
    (hstop : cfg.st.needToStop = false) :
    (cfg.st.device = Device.webgpu →
      (loopStep a b c cfg LoopEvent.fire).pending =
        Pending.scheduled Delay.immediate) ∧
    (cfg.st.device = Device.wasm →
      (loopStep a b c cfg LoopEvent.fire).pending =
        Pending.scheduled (Delay.afterMs 1000)) := by
  rcases cfg with ⟨cst, pend, log⟩
  simp only at hp
  subst hp
  constructor
  · intro hd
    dsimp only at hd
    simp [loopStep, hr, hd]
  · intro hd
    dsimp only at hd
    simp [loopStep, hr, hd]

/-- Claim C6 witness: the same completed in-flight outcome schedules the
next iteration immediately on a webgpu wrapper and with a 1000
millisecond delay on a wasm wrapper. -/
theorem claim_C6_witness :
    (loopStep (Arg.img (Pixels.still 0)) Arg.undef (Arg.fn 7)
      ⟨readyState,
       Pending.inFlight
         (classify readyState (Arg.img (Pixels.still 0)) Arg.undef (Arg.fn 7)),
       []⟩ LoopEvent.fire).pending =
      Pending.scheduled Delay.immediate ∧
    (loopStep (Arg.img (Pixels.still 0)) Arg.undef (Arg.fn 7)
      ⟨wasmState,
       Pending.inFlight
         (classify wasmState (Arg.img (Pixels.still 0)) Arg.undef (Arg.fn 7)),
       []⟩ LoopEvent.fire).pending =
      Pending.scheduled (Delay.afterMs 1000) := by
  constructor
  · exact (claim_C6 (Arg.img (Pixels.still 0)) Arg.undef (Arg.fn 7)
      ⟨readyState,
       Pending.inFlight
         (classify readyState (Arg.img (Pixels.still 0)) Arg.undef (Arg.fn 7)),
       []⟩
      (classify readyState (Arg.img (Pixels.still 0)) Arg.undef (Arg.fn 7))
      (some [NormResult.mk sampleLabel (9 / 10)]) rfl rfl rfl).1 rfl
  · exact (claim_C6 (Arg.img (Pixels.still 0)) Arg.undef (Arg.fn 7)
      ⟨wasmState,
       Pending.inFlight
         (classify wasmState (Arg.img (Pixels.still 0)) Arg.undef (Arg.fn 7)),
       []⟩
      (classify wasmState (Arg.img (Pixels.still 0)) Arg.undef (Arg.fn 7))
      (some [NormResult.mk sampleLabel (9 / 10)]) rfl rfl rfl).2 rfl

/-- Claim C7: with the guard passed, a video image is snapshotted by the
canvas-drawing utility before being handed to the inference callable,
which therefore never receives the video element itself; a non-video
image is passed through unchanged. -/
theorem claim_C7 (st : ClassifierState) (a b c : Arg) (f : ClassifierFn)
    (img : Pixels)
    (hb : st.isClassifying = false) (hc : st.classifier = some f)
    (him : (handleArguments a b c).image = some img) :
    (isVideo img = true →
      (∃ n : Int, (classify st a b c).inferCalls = [(drawToCanvas img, n)]) ∧
      ∀ pr ∈ (classify st a b c).inferCalls,
        isVideo pr.1 = false ∧ pr.1 ≠ img) ∧
    (isVideo img = false →
      ∃ n : Int, (classify st a b c).inferCalls = [(img, n)]) := by
  have hcalls := classify_inferCalls_eq st a b c f img
    (match (handleArguments a b c).number with
     | some m => m
     | none => st.topK) hb hc him rfl
  constructor
  · intro hv
    rw [hcalls]
    simp only [hv, if_true]
    refine ⟨⟨_, rfl⟩, ?_⟩
    intro pr hpr
    simp only [List.mem_singleton] at hpr
    subst hpr
    exact ⟨rfl, canvasOf_ne img⟩
  · intro hv
    rw [hcalls]
    simp only [hv, Bool.false_eq_true, if_false]
    exact ⟨_, rfl⟩

/-- Claim C7 witness: a concrete video input reaches the inference
callable only as its canvas snapshot, never as the video element. -/
theorem claim_C7_witness :
    (∃ n : Int,
      (classify readyState (Arg.img (Pixels.video 4)) Arg.undef
        (Arg.fn 7)).inferCalls = [(drawToCanvas (Pixels.video 4), n)]) ∧
    ∀ pr ∈ (classify readyState (Arg.img (Pixels.video 4)) Arg.undef
        (Arg.fn 7)).inferCalls,
      isVideo pr.1 = false ∧ pr.1 ≠ Pixels.video 4 :=
  (claim_C7 readyState (Arg.img (Pixels.video 4)) Arg.undef (Arg.fn 7)
    sampleClassifier (Pixels.video 4) rfl rfl rfl).1 rfl

/-- Claim C8: when a classify call passes the guard but then rejects, the
busy flag stays set and is never reset, so every later classify or
classifyStart call on the instance no-ops: the wrapper is permanently
disabled. -/
theorem claim_C8 (st : ClassifierState) (a b c : Arg) (f : ClassifierFn)
    (e : JsError)
    (hb : st.isClassifying = false) (hc : st.classifier = some f)
    (he : (classify st a b c).ret = Except.error e) :
    (classify st a b c).state.isClassifying = true ∧
    (∀ a2 b2 c2 : Arg,
      classify (classify st a b c).state a2 b2 c2 =
        classifyNoop (classify st a b c).state) ∧
    (∀ a2 b2 c2 : Arg,
      classifyStart (classify st a b c).state a2 b2 c2 =
        ⟨(classify st a b c).state, Pending.halted, []⟩) := by
  have hst := classify_state_error st a b c f e hb hc he
  rw [hst]
  refine ⟨rfl, ?_, ?_⟩
  · intro a2 b2 c2
    exact classify_of_busy _ a2 b2 c2 rfl
  · intro a2 b2 c2
    exact classifyStart_of_busy _ a2 b2 c2 rfl

/-- Claim C8 witness: a ready wrapper whose classify call rejects for
want of an image stays busy forever. -/
theorem claim_C8_witness :
    (classify readyState (Arg.fn 9) Arg.undef Arg.undef).state.isClassifying =
      true ∧
    (∀ a2 b2 c2 : Arg,
      classify (classify readyState (Arg.fn 9) Arg.undef Arg.undef).state
          a2 b2 c2 =
        classifyNoop (classify readyState (Arg.fn 9) Arg.undef Arg.undef).state) ∧
    (∀ a2 b2 c2 : Arg,
      classifyStart (classify readyState (Arg.fn 9) Arg.undef Arg.undef).state
          a2 b2 c2 =
        ⟨(classify readyState (Arg.fn 9) Arg.undef Arg.undef).state,
         Pending.halted, []⟩) :=
  claim_C8 readyState (Arg.fn 9) Arg.undef Arg.undef sampleClassifier
    (JsError.missingImage classifyMissingImageMsg) rfl rfl rfl

/-- Claim C9: the constructor treats a falsy options.topK of 0 as absent
and stores 3, while a per-call override of 0 is honored and forwarded as
top_k, because line 74 tests against undefined rather than truthiness. -/
theorem claim_C9 (opts : TransformerOptions) (g : Bool)
    (st : ClassifierState) (a b c : Arg) (f : ClassifierFn) (img : Pixels)
    (hb : st.isClassifying = false) (hc : st.classifier = some f)
    (him : (handleArguments a b c).image = some img) :
    (opts.topK = some 0 → (mkState opts g).topK = 3) ∧
    ((handleArguments a b c).number = some 0 →
      (classify st a b c).inferCalls =
        [((if isVideo img then drawToCanvas img else img), 0)]) := by
  constructor
  · intro hk
    simp [mkState, jsOrNum, hk]
  · intro hnum
    exact classify_inferCalls_eq st a b c f img 0 hb hc him (by rw [hnum])

/-- Claim C9 witness: constructing with topK 0 stores 3, and a concrete
per-call override of 0 is forwarded as top_k. -/
theorem claim_C9_witness :
    (mkState zeroTopKOptions true).topK = 3 ∧
    (classify readyState (Arg.img (Pixels.still 1)) (Arg.num 0)
      (Arg.fn 2)).inferCalls = [(Pixels.still 1, 0)] := by
  have h := claim_C9 zeroTopKOptions true readyState (Arg.img (Pixels.still 1))
    (Arg.num 0) (Arg.fn 2) sampleClassifier (Pixels.still 1) rfl rfl rfl
  exact ⟨h.1 rfl, h.2 rfl⟩

/-- Claim C10: a successful classify call mutates only the busy flag,
setting it at entry and clearing it before resolving; the stop flag, the
configured count, the device and the classifier handle are unchanged and
the busy flag is false again at resolution. -/
theorem claim_C10 (st : ClassifierState) (a b c : Arg) (f : ClassifierFn)
    (img : Pixels) (n : Int) (k : Nat) (rs : List RawResult)
    (hb : st.isClassifying = false) (hc : st.classifier = some f)
    (him : (handleArguments a b c).image = some img)
    (hn : (match (handleArguments a b c).number with
           | some m => m
           | none => st.topK) = n)
    (hcb : (handleArguments a b c).callback = some k)
    (hf : f (if isVideo img then drawToCanvas img else img) n = Except.ok rs) :
    (classifyMidState st).isClassifying = true ∧
    (classify st a b c).state.needToStop = st.needToStop ∧
    (classify st a b c).state.topK = st.topK ∧
    (classify st a b c).state.device = st.device ∧
    (classify st a b c).state.classifier = st.classifier ∧
    (classify st a b c).state.isClassifying = false := by
  rw [classify_success_eq st a b c f img n k rs hb hc him hn hcb hf]
  refine ⟨?_, rfl, rfl, rfl, rfl, rfl⟩
  simp [classifyMidState, hb, hc]

/-- Claim C10 witness: a concrete successful call leaves every field but
the busy flag unchanged. -/
theorem claim_C10_witness :
    (classifyMidState readyState).isClassifying = true ∧
    (classify readyState (Arg.img (Pixels.still 3)) Arg.undef
      (Arg.fn 1)).state.needToStop = readyState.needToStop ∧
    (classify readyState (Arg.img (Pixels.still 3)) Arg.undef
      (Arg.fn 1)).state.topK = readyState.topK ∧
    (classify readyState (Arg.img (Pixels.still 3)) Arg.undef
      (Arg.fn 1)).state.device = readyState.device ∧
    (classify readyState (Arg.img (Pixels.still 3)) Arg.undef
      (Arg.fn 1)).state.classifier = readyState.classifier ∧
    (classify readyState (Arg.img (Pixels.still 3)) Arg.undef
      (Arg.fn 1)).state.isClassifying = false :=
  claim_C10 readyState (Arg.img (Pixels.still 3)) Arg.undef (Arg.fn 1)
    sampleClassifier (Pixels.still 3) 3 1 [sampleRaw] rfl rfl rfl rfl rfl rfl

end Ml5
